import Mathlib

/-
Verification of the transaction-processing pipeline in src/process_portfolio.py.

The Python program is embedded shallowly:
- text cells are Lean Strings, and the Python string operations used by the
  program (str.strip, the "in" substring test) are re-implemented over the
  character list of the String so that they evaluate inside the kernel;
- pandas numeric cells are modelled as exact decimal numbers (an integer
  mantissa together with a power-of-ten scale); a missing / NaN value is
  Option.none.  numpy rounding (ndarray.round, which rounds half to even)
  is implemented exactly on these decimals;
- a pandas DataFrame is a list of named columns; pd.read_csv output is a
  frame of raw string cells (RawFrame), the cleaned frame is a frame of
  typed cells (DFrame);
- pd.to_datetime is modelled for ISO formatted date strings (YYYY-MM-DD);
  a cell that does not parse raises, which the embedding renders as an
  Except.error, exactly as in the source, where the whole column is parsed
  as a unit;
- pd.to_numeric with errors=coerce is a total function into Option Dec;
- DataFrame.sort_values(col, ascending=False) goes through pandas nargsort,
  which computes an ascending argsort and then reverses the indexer; it is
  modelled as a stable ascending insertion sort followed by List.reverse
  (exact for inputs on which numpy runs its insertion-sort path, which is
  stable);
- the aliasing behaviour of save_transactions_summary (the display frame is
  a copy produced by column list indexing, which the source then mutates
  in place) is modelled with an explicit heap of frames addressed by
  natural numbers.
-/

namespace Portfolio

/-! ## Python text primitives -/

/-- Leading part test on character lists: the first argument occurs at the
head of the second. -/
def startsWithChars : List Char → List Char → Bool
  | [], _ => true
  | _ :: _, [] => false
  | a :: as, b :: bs => a == b && startsWithChars as bs

/-- Contiguous occurrence of the first character list inside the second. -/
def containsChars (needle : List Char) : List Char → Bool
  | [] => startsWithChars needle []
  | c :: rest => startsWithChars needle (c :: rest) || containsChars needle rest

/-- Python expression needle in hay (case sensitive substring test). -/
def pyContains (hay needle : String) : Bool :=
  containsChars needle.data hay.data

/-- Python str.strip: remove leading and trailing whitespace. -/
def pyStrip (s : String) : String :=
  String.mk (((s.data.dropWhile Char.isWhitespace).reverse.dropWhile Char.isWhitespace).reverse)

/-! ## Exact decimal numbers (pandas float cells) -/

/-- An exact decimal number: man / 10 ^ sc.  Quantity, price and amount
cells of the cleaned frame are decimals of this form, a NaN cell is the
value Option.none at use sites. -/
structure Dec where
  man : Int
  sc : Nat
deriving DecidableEq

/-- Round m / d (with d positive) to the nearest integer, ties to the even
neighbour.  This is the rounding rule of numpy rint, which ndarray.round
applies after scaling. -/
def roundHalfEvenDiv (m d : Int) : Int :=
  let q := Int.ediv m d
  let r := Int.emod m d
  if 2 * r < d then q
  else if d < 2 * r then q + 1
  else if 2 ∣ q then q else q + 1

/-- Number of cents: the value scaled by 100 and rounded half to even. -/
def Dec.cents (x : Dec) : Int :=
  if x.sc ≤ 2 then x.man * (10 : Int) ^ (2 - x.sc)
  else roundHalfEvenDiv x.man ((10 : Int) ^ (x.sc - 2))

/-- ndarray.round(2): round to two fractional digits, half to even. -/
def roundTo2 (x : Dec) : Dec :=
  ⟨Dec.cents x, 2⟩

/-- Exact product of two decimals. -/
def Dec.mul (a b : Dec) : Dec :=
  ⟨a.man * b.man, a.sc + b.sc⟩

/-- Product of two float cells; NaN (none) propagates, as in pandas
elementwise multiplication. -/
def optMul (a b : Option Dec) : Option Dec :=
  match a, b with
  | some x, some y => some (Dec.mul x y)
  | _, _ => none

/-! ## Cell parsing -/

def digitVal (c : Char) : Nat := c.toNat - 48

def isDigitList (l : List Char) : Bool :=
  !l.isEmpty && l.all Char.isDigit

def natOfDigits (l : List Char) : Nat :=
  l.foldl (fun a c => a * 10 + digitVal c) 0

/-- Split a character list at the first dot, keeping the part before it and,
when a dot is present, the part after it. -/
def splitAtDot : List Char → List Char × Option (List Char)
  | [] => ([], none)
  | '.' :: rest => ([], some rest)
  | c :: rest =>
    let p := splitAtDot rest
    (c :: p.1, p.2)

/-- Unsigned decimal literal: digits, optionally followed by a dot and
further digits. -/
def parseUnsigned (l : List Char) : Option Dec :=
  match splitAtDot l with
  | (ip, none) =>
    if isDigitList ip then some ⟨(natOfDigits ip : Int), 0⟩ else none
  | (ip, some fp) =>
    if isDigitList ip && isDigitList fp then
      some ⟨(natOfDigits ip * 10 ^ fp.length + natOfDigits fp : Int), fp.length⟩
    else none

/-- pd.to_numeric(. , errors=coerce) on a cell, modelled for plain decimal
literals with an optional leading minus sign: a cell that fails numeric
coercion becomes none (NaN) and never raises. -/
def parseNumeric (s : String) : Option Dec :=
  match (pyStrip s).data with
  | '-' :: rest => (parseUnsigned rest).map (fun d => ⟨-d.man, d.sc⟩)
  | l => parseUnsigned l

/-- pd.to_datetime on one cell, modelled for ISO formatted dates
(YYYY-MM-DD); the result is the key y * 10000 + m * 100 + d, whose natural
order is the calendar order. -/
def parseDate (s : String) : Option Nat :=
  match (pyStrip s).data with
  | [y1, y2, y3, y4, '-', m1, m2, '-', d1, d2] =>
    if isDigitList [y1, y2, y3, y4] && isDigitList [m1, m2] && isDigitList [d1, d2] then
      let y := natOfDigits [y1, y2, y3, y4]
      let m := natOfDigits [m1, m2]
      let d := natOfDigits [d1, d2]
      if 1 ≤ m && m ≤ 12 && 1 ≤ d && d ≤ 31 then
        some (y * 10000 + m * 100 + d)
      else none
    else none
  | _ => none

/-! ## Raw frames (pd.read_csv output) -/

/-- A raw DataFrame: named columns of string cells, as read from a CSV
file. -/
structure RawFrame where
  cols : List (String × List String)
deriving DecidableEq

def RawFrame.columns (df : RawFrame) : List String :=
  df.cols.map Prod.fst

/-- Line 21 of the source: strip whitespace from every column header. -/
def RawFrame.stripColumns (df : RawFrame) : RawFrame :=
  ⟨df.cols.map (fun c => (pyStrip c.1, c.2))⟩

/-- Column lookup by header name; a missing column gives the empty
column. -/
def RawFrame.col (df : RawFrame) (name : String) : List String :=
  match df.cols.find? (fun c => c.1 == name) with
  | some c => c.2
  | none => []

/-! ## The cleaned rows -/

inductive TxType where
  | SELL
  | BUY
deriving DecidableEq

/-- One row of cleaned_df.  The idx field is the pandas RangeIndex label
the row inherits from the raw frame; dropna and sort_values keep these
labels, so idx records the original input position of the row. -/
structure CleanRow where
  idx : Nat
  settlement_date : Nat
  symbol : String
  stock_name : String
  quantity : Option Dec
  price : Option Dec
  total_amount : Option Dec
  transaction_type : Option TxType
deriving DecidableEq

/-- Line 43 of the source: SELL when the action text contains SOLD, else
BUY when it contains BOUGHT, else no classification. -/
def classifyAction (x : String) : Option TxType :=
  if pyContains x "SOLD" then some TxType.SELL
  else if pyContains x "BOUGHT" then some TxType.BUY
  else none

inductive PipelineError where
  | schemaError (filePath : String) (availableColumns : List String)
  | parseError (badValue : String)
deriving DecidableEq

/-- pd.to_datetime over the whole settlement date column: the column is
parsed as a unit and the first unparsable cell raises for the whole
file. -/
def parseDateColumn : List String → Except PipelineError (List Nat)
  | [] => .ok []
  | s :: rest =>
    match parseDate s with
    | none => .error (.parseError s)
    | some d =>
      match parseDateColumn rest with
      | .error e => .error e
      | .ok ds => .ok (d :: ds)

/-- Lines 34 to 44 of the source, at row index i: the cleaned cells of one
row, built from the columns of the stripped raw frame. -/
def buildRow (df : RawFrame) (dates : List Nat) (i : Nat) : CleanRow :=
  let q := parseNumeric ((df.col "Quantity").getD i "")
  let p := (parseNumeric ((df.col "Price").getD i "")).map roundTo2
  { idx := i
    settlement_date := dates.getD i 0
    symbol := pyStrip ((df.col "Symbol").getD i "")
    stock_name := pyStrip ((df.col "Description").getD i "")
    quantity := q
    price := p
    total_amount := (optMul q p).map roundTo2
    transaction_type := classifyAction ((df.col "Action").getD i "") }

def neededColumns : List String :=
  ["Settlement Date", "Symbol", "Description", "Quantity", "Price", "Action"]

def dateLe (a b : CleanRow) : Prop :=
  a.settlement_date ≤ b.settlement_date

instance : DecidableRel dateLe :=
  fun a b => Nat.decLe a.settlement_date b.settlement_date

instance : IsTotal CleanRow dateLe :=
  ⟨fun a b => Nat.le_total a.settlement_date b.settlement_date⟩

instance : IsTrans CleanRow dateLe :=
  ⟨fun _ _ _ => Nat.le_trans⟩

/-- Line 50 of the source, df.sort_values(col, ascending=False): pandas
nargsort computes an ascending argsort of the key column and reverses the
indexer.  Modelled as a stable ascending sort followed by reversal, which
is the exact behaviour on inputs where the numpy sort runs its stable
insertion-sort path. -/
def sortByDateDescending (l : List CleanRow) : List CleanRow :=
  (List.insertionSort dateLe l).reverse

/-- Lines 15 to 52 of the source: clean_fidelity_csv.  The row count of the
frame is the length of the settlement date column, as all columns of a
frame read from a CSV file have equal length. -/
def clean_fidelity_csv (filePath : String) (raw : RawFrame) : Except PipelineError (List CleanRow) :=
  let df := raw.stripColumns
  if neededColumns.all (fun c => df.columns.contains c) then
    match parseDateColumn (df.col "Settlement Date") with
    | .error e => .error e
    | .ok dates =>
      let rows := (List.range (df.col "Settlement Date").length).map (buildRow df dates)
      .ok (sortByDateDescending (rows.filter (fun r => r.transaction_type.isSome)))
  else
    .error (.schemaError filePath df.columns)

/-! ## Typed frames, heap, output formatting -/

/-- A cell of the cleaned DataFrame: a datetime cell, an object (string)
cell, or a float cell where none is NaN. -/
inductive Cell where
  | date (d : Nat)
  | str (s : String)
  | num (v : Option Dec)
deriving DecidableEq

/-- A cleaned DataFrame value: named columns of typed cells. -/
structure DFrame where
  cols : List (String × List Cell)
deriving DecidableEq

def DFrame.columns (f : DFrame) : List String :=
  f.cols.map Prod.fst

def DFrame.col (f : DFrame) (name : String) : List Cell :=
  match f.cols.find? (fun c => c.1 == name) with
  | some c => c.2
  | none => []

def DFrame.numRows (f : DFrame) : Nat :=
  match f.cols with
  | [] => 0
  | c :: _ => c.2.length

/-- Column list indexing df[[names]]: produces a new frame holding the
named columns, in the given order. -/
def DFrame.select (f : DFrame) (names : List String) : DFrame :=
  ⟨names.map (fun n => (n, f.col n))⟩

/-- Column assignment df[name] = vals on an existing column. -/
def DFrame.setCol (f : DFrame) (name : String) (vals : List Cell) : DFrame :=
  ⟨f.cols.map (fun c => if c.1 == name then (c.1, vals) else c)⟩

/-- The in-memory store of DataFrames.  A Python variable holding a
DataFrame is an address into the heap; pandas operations that copy
allocate a fresh frame, in-place column assignment overwrites the frame at
an address. -/
structure Heap where
  frames : List DFrame
deriving DecidableEq

def Heap.read (h : Heap) (a : Nat) : DFrame :=
  h.frames.getD a ⟨[]⟩

def Heap.alloc (h : Heap) (f : DFrame) : Heap × Nat :=
  (⟨h.frames ++ [f]⟩, h.frames.length)

def Heap.write (h : Heap) (a : Nat) (f : DFrame) : Heap :=
  ⟨h.frames.set a f⟩

def txLabel : TxType → String
  | .SELL => "SELL"
  | .BUY => "BUY"

def txCell : Option TxType → Cell
  | some t => .str (txLabel t)
  | none => .num none

/-- The columnar content of cleaned_df, built from its rows in the column
creation order of lines 34 to 44. -/
def toDFrame (rows : List CleanRow) : DFrame :=
  ⟨[("Settlement Date", rows.map (fun r => Cell.date r.settlement_date)),
    ("Symbol", rows.map (fun r => Cell.str r.symbol)),
    ("Stock Name", rows.map (fun r => Cell.str r.stock_name)),
    ("Quantity", rows.map (fun r => Cell.num r.quantity)),
    ("Price", rows.map (fun r => Cell.num r.price)),
    ("Total Amount", rows.map (fun r => Cell.num r.total_amount)),
    ("Transaction Type", rows.map (fun r => txCell r.transaction_type))]⟩

/-! ## Rendering -/

/-- Two-digit zero padding of a number below 100. -/
def pad2 (n : Nat) : String :=
  (if n < 10 then "0" else "") ++ toString n

/-- Four-digit zero padding of a year. -/
def pad4 (n : Nat) : String :=
  (if n < 10 then "000" else if n < 100 then "00" else if n < 1000 then "0" else "") ++ toString n

/-- Serialization of a datetime cell by to_csv, ISO formatted. -/
def dateRender (d : Nat) : String :=
  pad4 (d / 10000) ++ "-" ++ pad2 (d / 100 % 100) ++ "-" ++ pad2 (d % 100)

/-- Fixed two-fractional-digit rendering of an integer number of cents,
the C conversion .2f applied to an exact decimal. -/
def centsRender (c : Int) : String :=
  (if c < 0 then "-" else "") ++ toString (c.natAbs / 100) ++ "." ++ pad2 (c.natAbs % 100)

/-- Python format spec .2f on a float cell; the NaN float renders as the
string nan. -/
def fmtFloat2 : Option Dec → String
  | none => "nan"
  | some d => centsRender (Dec.cents d)

/-- Lines 76 and 77 of the source: the currency formatting lambda, a dollar
sign followed by the .2f rendering of the float. -/
def fmtCurrency (v : Option Dec) : String :=
  "$" ++ fmtFloat2 v

/-- The currency lambda applied over one column. -/
def applyCurrency (col : List Cell) : List Cell :=
  col.map (fun c =>
    match c with
    | .num v => .str (fmtCurrency v)
    | c => c)

def stripZeros : Int → Nat → Dec
  | m, 0 => ⟨m, 0⟩
  | m, s + 1 => if Int.emod m 10 = 0 then stripZeros (Int.ediv m 10) s else ⟨m, s + 1⟩

/-- Left zero padding of a digit string to a given width. -/
def padZerosTo (s : String) (k : Nat) : String :=
  String.mk (List.replicate (k - s.length) '0') ++ s

/-- Default float rendering of repr, as used by to_csv without a float
format: the shortest decimal form with at least one fractional digit.
Exact for floats obtained from short decimal literals. -/
def decRepr (d : Dec) : String :=
  let n := stripZeros d.man d.sc
  let sign := if n.man < 0 then "-" else ""
  match n.sc with
  | 0 => sign ++ toString n.man.natAbs ++ ".0"
  | k + 1 =>
    sign ++ toString (n.man.natAbs / 10 ^ (k + 1)) ++ "." ++
      padZerosTo (toString (n.man.natAbs % 10 ^ (k + 1))) (k + 1)

/-- Cell serialization of to_csv with float_format set to .2f, used for the
canonical file: floats through the fixed two-digit format, NaN as the
default empty na_rep. -/
def cellRenderCanonical : Cell → String
  | .date d => dateRender d
  | .str s => s
  | .num none => ""
  | .num (some v) => centsRender (Dec.cents v)

/-- Cell serialization of to_csv with default options, used for the display
file. -/
def cellRenderDisplay : Cell → String
  | .date d => dateRender d
  | .str s => s
  | .num none => ""
  | .num (some v) => decRepr v

/-- Serialized data rows of a frame, in row-major order. -/
def frameRows (render : Cell → String) (f : DFrame) : List (List String) :=
  (List.range f.numRows).map (fun i => f.cols.map (fun c => render (c.2.getD i (Cell.str ""))))

/-- pathlib Path name: the final path component. -/
def baseName (p : String) : String :=
  String.mk ((p.data.reverse.takeWhile (fun c => !(c == '/'))).reverse)

/-- pathlib Path stem: the file name without its last extension. -/
def stem (name : String) : String :=
  let r := name.data.reverse
  if r.contains '.' then
    String.mk ((r.dropWhile (fun c => !(c == '.'))).tail.reverse)
  else name

/-- One written CSV artifact: its path, header line and data rows. -/
structure OutFile where
  path : String
  header : List String
  rows : List (List String)
deriving DecidableEq

def displayColumns : List String :=
  ["Settlement Date", "Symbol", "Stock Name", "Transaction Type", "Quantity", "Price", "Total Amount"]

/-- Lines 54 to 88 of the source: save_transactions_summary.  The frame at
dfAddr is serialized to the clean file with the two-digit float format;
column list indexing then copies the display columns into a fresh frame,
whose Price and Total Amount columns are overwritten in place with
currency strings before serialization to the results file. -/
def save_transactions_summary (h : Heap) (dfAddr : Nat) (inputFilename : String) :
    Heap × OutFile × OutFile :=
  let base := stem inputFilename
  let df := h.read dfAddr
  let cleanFile : OutFile :=
    ⟨"orders/clean/clean_" ++ base ++ ".csv", df.columns, frameRows cellRenderCanonical df⟩
  let p1 := h.alloc (df.select displayColumns)
  let h1 := p1.1
  let outAddr := p1.2
  let h2 := h1.write outAddr ((h1.read outAddr).setCol "Price" (applyCurrency ((h1.read outAddr).col "Price")))
  let h3 := h2.write outAddr ((h2.read outAddr).setCol "Total Amount" (applyCurrency ((h2.read outAddr).col "Total Amount")))
  let outDf := h3.read outAddr
  let resultsFile : OutFile :=
    ⟨"orders/results/summary_" ++ base ++ ".csv", outDf.columns, frameRows cellRenderDisplay outDf⟩
  (h3, cleanFile, resultsFile)

/-! ## Orchestration -/

/-- The per-file statistics printed by lines 111 to 119 of the source. -/
structure Stats where
  total : Nat
  uniqueStocks : Nat
  sellCount : Nat
  buyCount : Nat
deriving DecidableEq

def statsOf (f : DFrame) : Stats :=
  { total := f.numRows
    uniqueStocks := (f.col "Symbol").dedup.length
    sellCount := (f.col "Transaction Type").countP (fun c => c == Cell.str "SELL")
    buyCount := (f.col "Transaction Type").countP (fun c => c == Cell.str "BUY") }

/-- The loop body of lines 107 to 119 for a successfully cleaned file: the
cleaned rows are placed in a fresh per-iteration heap, saved, and the
statistics are read from the cleaned frame after the save call returns. -/
def runSave (name : String) (rows : List CleanRow) : OutFile × OutFile × Stats :=
  let p := Heap.alloc ⟨[]⟩ (toDFrame rows)
  let r := save_transactions_summary p.1 p.2 name
  (r.2.1, r.2.2, statsOf (r.1.read p.2))

structure ProcessedEntry where
  input : String
  clean : String
  results : String
  transactions : Nat
deriving DecidableEq

/-- The observable outcome of one run: the processed list returned by
process_raw_files, every written file, and the per-file error reports of
the except branch. -/
structure RunReport where
  processed : List ProcessedEntry
  writes : List OutFile
  errors : List (String × PipelineError)
deriving DecidableEq

/-- Lines 90 to 132 of the source: process_raw_files over the discovered
files.  A failing file is caught by the except branch, reported, and the
loop continues with the remaining files; a succeeding file contributes its
two written artifacts and its processed entry. -/
def process_raw_files : List (String × RawFrame) → RunReport
  | [] => ⟨[], [], []⟩
  | (name, raw) :: rest =>
    let tail := process_raw_files rest
    match clean_fidelity_csv name raw with
    | .error e => ⟨tail.processed, tail.writes, (name, e) :: tail.errors⟩
    | .ok rows =>
      let r := runSave (baseName name) rows
      ⟨⟨name, r.1.path, r.2.1.path, r.2.2.total⟩ :: tail.processed,
       r.1 :: r.2.1 :: tail.writes, tail.errors⟩

/-- Fallback row for positional access, never the value of an actual
cell. -/
def rowDefault : CleanRow :=
  ⟨0, 0, "", "", none, none, none, none⟩

/-! ## General lemmas -/

theorem getD_map_lt {α β : Type} (f : α → β) (l : List α) {i : Nat} (h : i < l.length)
    (d : β) (d₀ : α) : (l.map f).getD i d = f (l.getD i d₀) := by
  rw [List.getD_eq_getElem?_getD, List.getD_eq_getElem?_getD, List.getElem?_map,
    List.getElem?_eq_getElem h]
  rfl

theorem mem_sortByDateDescending (r : CleanRow) (l : List CleanRow) :
    r ∈ sortByDateDescending l ↔ r ∈ l := by
  unfold sortByDateDescending
  rw [List.mem_reverse]
  exact (List.perm_insertionSort dateLe l).mem_iff

/-- Unfolding of a successful clean_fidelity_csv run: the output is the
descending sort of the classified rows built from the stripped frame. -/
theorem clean_fidelity_csv_ok (filePath : String) (raw : RawFrame) (out : List CleanRow)
    (h : clean_fidelity_csv filePath raw = .ok out) :
    ∃ dates, parseDateColumn (raw.stripColumns.col "Settlement Date") = .ok dates ∧
      out = sortByDateDescending
        (((List.range (raw.stripColumns.col "Settlement Date").length).map
            (buildRow raw.stripColumns dates)).filter
          (fun r => r.transaction_type.isSome)) := by
  unfold clean_fidelity_csv at h
  by_cases hc : neededColumns.all (fun c => raw.stripColumns.columns.contains c) = true
  · rw [if_pos hc] at h
    cases hd : parseDateColumn (raw.stripColumns.col "Settlement Date") with
    | error e => rw [hd] at h; exact absurd h (by simp)
    | ok dates =>
      rw [hd] at h
      injection h with h
      exact ⟨dates, rfl, h.symm⟩
  · rw [if_neg hc] at h
    exact absurd h (by simp)

theorem classifyAction_isSome (x : String) :
    (classifyAction x).isSome = true ↔
      (pyContains x "SOLD" = true ∨ pyContains x "BOUGHT" = true) := by
  unfold classifyAction
  by_cases h1 : pyContains x "SOLD" = true <;>
    by_cases h2 : pyContains x "BOUGHT" = true <;>
      simp [h1, h2]

/-- Membership in a successful output, decomposed to the originating input
row index. -/
theorem mem_clean_ok (raw : RawFrame) (out : List CleanRow) (dates : List Nat)
    (hout : out = sortByDateDescending
      (((List.range (raw.stripColumns.col "Settlement Date").length).map
          (buildRow raw.stripColumns dates)).filter
        (fun r => r.transaction_type.isSome)))
    (r : CleanRow) :
    r ∈ out ↔
      ∃ j, j < (raw.stripColumns.col "Settlement Date").length ∧
        r = buildRow raw.stripColumns dates j ∧ r.transaction_type.isSome = true := by
  rw [hout, mem_sortByDateDescending, List.mem_filter]
  constructor
  · rintro ⟨hr, hs⟩
    obtain ⟨j, hj, rfl⟩ := List.mem_map.mp hr
    exact ⟨j, List.mem_range.mp hj, rfl, hs⟩
  · rintro ⟨j, hj, rfl, hs⟩
    exact ⟨List.mem_map.mpr ⟨j, List.mem_range.mpr hj, rfl⟩, hs⟩

theorem optMul_none_left (b : Option Dec) : optMul none b = none := by
  cases b <;> rfl

theorem optMul_none_right (a : Option Dec) : optMul a none = none := by
  cases a <;> rfl

/-! ## Claim C1 -/

/-- C1: a row appears in the normalized output iff its action text contains
SOLD or BOUGHT (case sensitive substring), and the classification is SELL
whenever SOLD occurs (even if BOUGHT also occurs), else BUY whenever
BOUGHT occurs, else the row is unclassified and absent. -/
theorem C1_classification (filePath : String) (df : RawFrame) (out : List CleanRow)
    (h : clean_fidelity_csv filePath df = .ok out) (i : Nat)
    (hi : i < (df.stripColumns.col "Settlement Date").length) :
    ((∃ r ∈ out, r.idx = i) ↔
      (pyContains ((df.stripColumns.col "Action").getD i "") "SOLD" = true ∨
       pyContains ((df.stripColumns.col "Action").getD i "") "BOUGHT" = true)) ∧
    (∀ r ∈ out, r.idx = i →
      r.transaction_type =
        (if pyContains ((df.stripColumns.col "Action").getD i "") "SOLD" = true then
          some TxType.SELL
         else if pyContains ((df.stripColumns.col "Action").getD i "") "BOUGHT" = true then
          some TxType.BUY
         else none)) := by
  obtain ⟨dates, hdates, hout⟩ := clean_fidelity_csv_ok filePath df out h
  have hmem := mem_clean_ok df out dates hout
  constructor
  · constructor
    · rintro ⟨r, hr, hidx⟩
      obtain ⟨j, hj, rfl, hs⟩ := (hmem r).mp hr
      have hji : j = i := hidx
      subst hji
      exact (classifyAction_isSome _).mp hs
    · intro hc
      exact ⟨buildRow df.stripColumns dates i,
        (hmem _).mpr ⟨i, hi, rfl, (classifyAction_isSome _).mpr hc⟩, rfl⟩
  · intro r hr hidx
    obtain ⟨j, hj, rfl, hs⟩ := (hmem r).mp hr
    have hji : j = i := hidx
    subst hji
    rfl

def wFrame : RawFrame :=
  ⟨[("Settlement Date ", ["2024-01-02"]),
    ("Symbol", [" AAPL "]),
    ("Description", ["APPLE INC"]),
    ("Quantity", ["3"]),
    ("Price", ["19.5"]),
    ("Action", ["YOU BOUGHT X"])]⟩

def wOut : List CleanRow :=
  [⟨0, 20240102, "AAPL", "APPLE INC", some ⟨3, 0⟩, some ⟨1950, 2⟩, some ⟨5850, 2⟩,
    some TxType.BUY⟩]

theorem C1_classification_witness :
    ((∃ r ∈ wOut, r.idx = 0) ↔
      (pyContains "YOU BOUGHT X" "SOLD" = true ∨
       pyContains "YOU BOUGHT X" "BOUGHT" = true)) ∧
    (∀ r ∈ wOut, r.idx = 0 →
      r.transaction_type =
        (if pyContains "YOU BOUGHT X" "SOLD" = true then some TxType.SELL
         else if pyContains "YOU BOUGHT X" "BOUGHT" = true then some TxType.BUY
         else none)) :=
  C1_classification "orders/raw/w.csv" wFrame wOut rfl 0 (by decide)

/-! ## Claim C2 -/

/-- C2 (amended): the output is ordered by settlement date descending; the
tie clause of the original claim fails, see the counterexample. -/
theorem C2_sorted_descending (filePath : String) (df : RawFrame) (out : List CleanRow)
    (h : clean_fidelity_csv filePath df = .ok out) :
    List.Pairwise (fun a b => b.settlement_date ≤ a.settlement_date) out := by
  obtain ⟨dates, _, hout⟩ := clean_fidelity_csv_ok filePath df out h
  subst hout
  unfold sortByDateDescending
  rw [List.pairwise_reverse]
  exact List.sorted_insertionSort dateLe _

/-- Reading of the tie clause of claim C2: among rows of equal settlement
date, the inherited input labels appear in their original increasing
order. -/
def tieOrderPreservedB : List CleanRow → Bool
  | [] => true
  | a :: rest =>
    rest.all (fun b => !(a.settlement_date == b.settlement_date) || Nat.ble a.idx b.idx) &&
    tieOrderPreservedB rest

def tieFrame : RawFrame :=
  ⟨[("Settlement Date", ["2024-01-02", "2024-01-02"]),
    ("Symbol", ["AAA", "BBB"]),
    ("Description", ["A CORP", "B CORP"]),
    ("Quantity", ["1", "2"]),
    ("Price", ["10", "20"]),
    ("Action", ["YOU BOUGHT A", "YOU BOUGHT B"])]⟩

/-- Counterexample to C2 as stated: two rows with equal settlement dates
come out in reversed input order (labels 1 then 0), because the source
sorts by reversing an ascending order, so the stable tie clause of the
claim is violated. -/
theorem C2_counterexample :
    (clean_fidelity_csv "orders/raw/tie.csv" tieFrame).map
        (fun l => (l.map (fun r => (r.idx, r.settlement_date)), tieOrderPreservedB l)) =
      .ok ([(1, 20240102), (0, 20240102)], false) := by
  rfl

def w2Frame : RawFrame :=
  ⟨[("Settlement Date", ["2024-01-02", "2024-03-04"]),
    ("Symbol", ["AAA", "BBB"]),
    ("Description", ["A CORP", "B CORP"]),
    ("Quantity", ["1", "2"]),
    ("Price", ["10", "20"]),
    ("Action", ["YOU BOUGHT A", "YOU SOLD B"])]⟩

def w2Out : List CleanRow :=
  [⟨1, 20240304, "BBB", "B CORP", some ⟨2, 0⟩, some ⟨2000, 2⟩, some ⟨4000, 2⟩, some TxType.SELL⟩,
   ⟨0, 20240102, "AAA", "A CORP", some ⟨1, 0⟩, some ⟨1000, 2⟩, some ⟨1000, 2⟩, some TxType.BUY⟩]

theorem C2_sorted_descending_witness :
    List.Pairwise (fun a b : CleanRow => b.settlement_date ≤ a.settlement_date) w2Out :=
  C2_sorted_descending "orders/raw/w2.csv" w2Frame w2Out rfl

/-! ## Claim C3 -/

/-- C3: in every normalized row with non-null quantity and price, the total
amount is the product of the two rounded to two digits, and the total
amount is null whenever quantity or price is null. -/
theorem C3_total_amount (filePath : String) (df : RawFrame) (out : List CleanRow)
    (h : clean_fidelity_csv filePath df = .ok out) (r : CleanRow) (hr : r ∈ out) :
    (∀ q p, r.quantity = some q → r.price = some p →
      r.total_amount = some (roundTo2 (Dec.mul q p))) ∧
    ((r.quantity = none ∨ r.price = none) → r.total_amount = none) := by
  obtain ⟨dates, hdates, hout⟩ := clean_fidelity_csv_ok filePath df out h
  obtain ⟨j, hj, rfl, hs⟩ := (mem_clean_ok df out dates hout r).mp hr
  have htot : (buildRow df.stripColumns dates j).total_amount =
      (optMul (buildRow df.stripColumns dates j).quantity
        (buildRow df.stripColumns dates j).price).map roundTo2 := rfl
  constructor
  · intro q p hq hp
    rw [htot, hq, hp]
    rfl
  · rintro (hq | hp)
    · rw [htot, hq, optMul_none_left]
      rfl
    · rw [htot, hp, optMul_none_right]
      rfl

theorem C3_total_amount_witness :
    (∀ q p, (⟨0, 20240102, "AAPL", "APPLE INC", some ⟨3, 0⟩, some ⟨1950, 2⟩, some ⟨5850, 2⟩,
        some TxType.BUY⟩ : CleanRow).quantity = some q →
      (⟨0, 20240102, "AAPL", "APPLE INC", some ⟨3, 0⟩, some ⟨1950, 2⟩, some ⟨5850, 2⟩,
        some TxType.BUY⟩ : CleanRow).price = some p →
      (⟨0, 20240102, "AAPL", "APPLE INC", some ⟨3, 0⟩, some ⟨1950, 2⟩, some ⟨5850, 2⟩,
        some TxType.BUY⟩ : CleanRow).total_amount = some (roundTo2 (Dec.mul q p))) ∧
    (((⟨0, 20240102, "AAPL", "APPLE INC", some ⟨3, 0⟩, some ⟨1950, 2⟩, some ⟨5850, 2⟩,
        some TxType.BUY⟩ : CleanRow).quantity = none ∨
      (⟨0, 20240102, "AAPL", "APPLE INC", some ⟨3, 0⟩, some ⟨1950, 2⟩, some ⟨5850, 2⟩,
        some TxType.BUY⟩ : CleanRow).price = none) →
      (⟨0, 20240102, "AAPL", "APPLE INC", some ⟨3, 0⟩, some ⟨1950, 2⟩, some ⟨5850, 2⟩,
        some TxType.BUY⟩ : CleanRow).total_amount = none) :=
  C3_total_amount "orders/raw/w.csv" wFrame wOut rfl _ (by decide)

/-! ## Claim C4 -/

/-- Spec reading of claim C4: rounding to two digits with halves away from
zero. -/
def roundHalfAwayTo2 (x : Dec) : Dec :=
  if x.sc ≤ 2 then ⟨x.man * (10 : Int) ^ (2 - x.sc), 2⟩
  else
    let d : Int := (10 : Int) ^ (x.sc - 2)
    let c := Int.ediv (2 * (x.man.natAbs : Int) + d) (2 * d)
    ⟨if x.man < 0 then -c else c, 2⟩

def roundFrame : RawFrame :=
  ⟨[("Settlement Date", ["2024-01-02"]),
    ("Symbol", ["AAA"]),
    ("Description", ["A CORP"]),
    ("Quantity", ["1"]),
    ("Price", ["0.125"]),
    ("Action", ["YOU BOUGHT A"])]⟩

/-- Counterexample to C4 as stated: a raw price of 0.125 is normalized to
0.12 (ndarray.round rounds halves to even), while rounding half away from
zero would give 0.13. -/
theorem C4_counterexample :
    (clean_fidelity_csv "orders/raw/round.csv" roundFrame).map (fun l => l.map CleanRow.price) =
      .ok [some ⟨12, 2⟩] ∧
    roundHalfAwayTo2 ⟨125, 3⟩ = ⟨13, 2⟩ ∧ (⟨12, 2⟩ : Dec) ≠ ⟨13, 2⟩ :=
  ⟨rfl, rfl, by decide⟩

/-- C4 (amended): every normalized price is the two-digit half-to-even
rounding (the numpy rounding rule) of the numeric coercion of its raw
price cell. -/
theorem C4_price_rounding (filePath : String) (df : RawFrame) (out : List CleanRow)
    (h : clean_fidelity_csv filePath df = .ok out) (r : CleanRow) (hr : r ∈ out) :
    r.price = (parseNumeric ((df.stripColumns.col "Price").getD r.idx "")).map roundTo2 := by
  obtain ⟨dates, hdates, hout⟩ := clean_fidelity_csv_ok filePath df out h
  obtain ⟨j, hj, rfl, hs⟩ := (mem_clean_ok df out dates hout r).mp hr
  rfl

theorem C4_price_rounding_witness :
    (⟨0, 20240102, "AAA", "A CORP", some ⟨1, 0⟩, some ⟨12, 2⟩, some ⟨12, 2⟩,
        some TxType.BUY⟩ : CleanRow).price =
      (parseNumeric "0.125").map roundTo2 :=
  C4_price_rounding "orders/raw/round.csv" roundFrame
    [⟨0, 20240102, "AAA", "A CORP", some ⟨1, 0⟩, some ⟨12, 2⟩, some ⟨12, 2⟩, some TxType.BUY⟩]
    rfl _ (by decide)

/-! ## Claim C5 -/

/-- C5: a file whose stripped header misses a required column fails with
the schema error carrying the file identity and the observed column set,
and the run over that file adds no written artifact and no processed
entry, only the error report. -/
theorem C5_schema_error (name : String) (df : RawFrame)
    (hmiss : neededColumns.all (fun c => df.stripColumns.columns.contains c) = false) :
    clean_fidelity_csv name df = .error (.schemaError name df.stripColumns.columns) ∧
    ∀ rest : List (String × RawFrame),
      process_raw_files ((name, df) :: rest) =
        ⟨(process_raw_files rest).processed, (process_raw_files rest).writes,
         (name, PipelineError.schemaError name df.stripColumns.columns) ::
           (process_raw_files rest).errors⟩ := by
  have h1 : clean_fidelity_csv name df = .error (.schemaError name df.stripColumns.columns) := by
    unfold clean_fidelity_csv
    rw [if_neg]
    rw [hmiss]
    exact Bool.false_ne_true
  refine ⟨h1, fun rest => ?_⟩
  simp only [process_raw_files, h1]

def missFrame : RawFrame :=
  ⟨[("Date", ["2024-01-02"]),
    ("Sym", ["AAA"]),
    ("Qty", ["1"]),
    ("Price", ["10"]),
    ("Action", ["YOU BOUGHT A"])]⟩

theorem C5_schema_error_witness :
    clean_fidelity_csv "orders/raw/m.csv" missFrame =
      .error (.schemaError "orders/raw/m.csv" ["Date", "Sym", "Qty", "Price", "Action"]) ∧
    process_raw_files [("orders/raw/m.csv", missFrame)] =
      ⟨[], [],
       [("orders/raw/m.csv",
         .schemaError "orders/raw/m.csv" ["Date", "Sym", "Qty", "Price", "Action"])]⟩ :=
  ⟨(C5_schema_error "orders/raw/m.csv" missFrame rfl).1,
   (C5_schema_error "orders/raw/m.csv" missFrame rfl).2 []⟩

/-! ## Claim C6 -/

theorem process_mem_errors_append (l1 l2 : List (String × RawFrame))
    (x : String × PipelineError) (hx : x ∈ (process_raw_files l2).errors) :
    x ∈ (process_raw_files (l1 ++ l2)).errors := by
  induction l1 with
  | nil => exact hx
  | cons p t ih =>
    rw [List.cons_append]
    unfold process_raw_files
    cases hc : clean_fidelity_csv p.1 p.2 with
    | error e => exact List.mem_cons_of_mem _ ih
    | ok rows => exact ih

theorem process_mem_writes_append (l1 l2 : List (String × RawFrame))
    (w : OutFile) (hw : w ∈ (process_raw_files l2).writes) :
    w ∈ (process_raw_files (l1 ++ l2)).writes := by
  induction l1 with
  | nil => exact hw
  | cons p t ih =>
    rw [List.cons_append]
    unfold process_raw_files
    cases hc : clean_fidelity_csv p.1 p.2 with
    | error e => exact ih
    | ok rows => exact List.mem_cons_of_mem _ (List.mem_cons_of_mem _ ih)

theorem process_writes_of_ok (files : List (String × RawFrame)) (name : String) (df : RawFrame)
    (hmem : (name, df) ∈ files) (out : List CleanRow)
    (hok : clean_fidelity_csv name df = .ok out) :
    (runSave (baseName name) out).1 ∈ (process_raw_files files).writes ∧
    (runSave (baseName name) out).2.1 ∈ (process_raw_files files).writes := by
  induction files with
  | nil => exact absurd hmem (List.not_mem_nil _)
  | cons p t ih =>
    rcases List.mem_cons.mp hmem with heq | htail
    · unfold process_raw_files
      rw [← heq] at *
      rw [hok]
      exact ⟨List.mem_cons_self _ _, List.mem_cons_of_mem _ (List.mem_cons_self _ _)⟩
    · have h2 := ih htail
      unfold process_raw_files
      cases hc : clean_fidelity_csv p.1 p.2 with
      | error e => exact h2
      | ok rows =>
        exact ⟨List.mem_cons_of_mem _ (List.mem_cons_of_mem _ h2.1),
          List.mem_cons_of_mem _ (List.mem_cons_of_mem _ h2.2)⟩

/-- C6: a schema or parse failure in one file of a run does not abort the
remaining files: its error is reported per file, and every valid file of
the run still has both of its artifacts among the writes. -/
theorem C6_per_file_isolation (files1 files2 : List (String × RawFrame))
    (badName : String) (badFrame : RawFrame) (e : PipelineError)
    (hbad : clean_fidelity_csv badName badFrame = .error e)
    (name : String) (df : RawFrame) (hmem : (name, df) ∈ files2)
    (out : List CleanRow) (hok : clean_fidelity_csv name df = .ok out) :
    (badName, e) ∈ (process_raw_files (files1 ++ (badName, badFrame) :: files2)).errors ∧
    (runSave (baseName name) out).1 ∈
      (process_raw_files (files1 ++ (badName, badFrame) :: files2)).writes ∧
    (runSave (baseName name) out).2.1 ∈
      (process_raw_files (files1 ++ (badName, badFrame) :: files2)).writes := by
  have herr : (badName, e) ∈ (process_raw_files ((badName, badFrame) :: files2)).errors := by
    unfold process_raw_files
    rw [hbad]
    exact List.mem_cons_self _ _
  have hwr := process_writes_of_ok ((badName, badFrame) :: files2) name df
    (List.mem_cons_of_mem _ hmem) out hok
  exact ⟨process_mem_errors_append files1 _ _ herr,
    process_mem_writes_append files1 _ _ hwr.1,
    process_mem_writes_append files1 _ _ hwr.2⟩

theorem C6_per_file_isolation_witness :
    ("orders/raw/m.csv", PipelineError.schemaError "orders/raw/m.csv"
        ["Date", "Sym", "Qty", "Price", "Action"]) ∈
      (process_raw_files
        [("orders/raw/m.csv", missFrame), ("orders/raw/w.csv", wFrame)]).errors ∧
    (runSave "w.csv" wOut).1 ∈
      (process_raw_files
        [("orders/raw/m.csv", missFrame), ("orders/raw/w.csv", wFrame)]).writes ∧
    (runSave "w.csv" wOut).2.1 ∈
      (process_raw_files
        [("orders/raw/m.csv", missFrame), ("orders/raw/w.csv", wFrame)]).writes :=
  C6_per_file_isolation [] [("orders/raw/w.csv", wFrame)] "orders/raw/m.csv" missFrame
    (.schemaError "orders/raw/m.csv" ["Date", "Sym", "Qty", "Price", "Action"]) rfl
    "orders/raw/w.csv" wFrame (by decide) wOut rfl

/-! ## Serialization of one row -/

/-- The canonical file line of one cleaned row: every field, floats in the
fixed two-digit format. -/
def canonicalLine (r : CleanRow) : List String :=
  [cellRenderCanonical (Cell.date r.settlement_date),
   cellRenderCanonical (Cell.str r.symbol),
   cellRenderCanonical (Cell.str r.stock_name),
   cellRenderCanonical (Cell.num r.quantity),
   cellRenderCanonical (Cell.num r.price),
   cellRenderCanonical (Cell.num r.total_amount),
   cellRenderCanonical (txCell r.transaction_type)]

/-- The display file line of one cleaned row: the display column subset,
price and total amount as currency strings. -/
def displayLine (r : CleanRow) : List String :=
  [cellRenderDisplay (Cell.date r.settlement_date),
   cellRenderDisplay (Cell.str r.symbol),
   cellRenderDisplay (Cell.str r.stock_name),
   cellRenderDisplay (txCell r.transaction_type),
   cellRenderDisplay (Cell.num r.quantity),
   cellRenderDisplay (Cell.str (fmtCurrency r.price)),
   cellRenderDisplay (Cell.str (fmtCurrency r.total_amount))]

theorem dedup_length_map_inj {α β : Type} [DecidableEq α] [DecidableEq β] (f : α → β)
    (hf : ∀ a b, f a = f b → a = b) (l : List α) :
    (l.map f).dedup.length = l.dedup.length := by
  induction l with
  | nil => rfl
  | cons a t ih =>
    by_cases h : a ∈ t
    · rw [List.map_cons, List.dedup_cons_of_mem (List.mem_map_of_mem f h),
        List.dedup_cons_of_mem h, ih]
    · have hnot : f a ∉ t.map f := by
        intro hmem
        obtain ⟨b, hb, hfb⟩ := List.mem_map.mp hmem
        exact h (hf b a hfb ▸ hb)
      rw [List.map_cons, List.dedup_cons_of_not_mem hnot, List.dedup_cons_of_not_mem h,
        List.length_cons, List.length_cons, ih]

theorem runSave_clean_rows (name : String) (rows : List CleanRow) :
    (runSave name rows).1.rows = rows.map canonicalLine := by
  show frameRows cellRenderCanonical (toDFrame rows) = rows.map canonicalLine
  apply List.ext_getElem
  · simp [frameRows, toDFrame, DFrame.numRows]
  · intro i h1 h2
    have hi : i < rows.length := by simpa using h2
    have e1 : ∀ f : CleanRow → Cell, (rows.map f).getD i (Cell.str "") = f (rows.get ⟨i, hi⟩) := by
      intro f
      rw [List.getD_eq_getElem _ _ (by simpa using hi)]
      exact List.getElem_map f
    simp only [frameRows, List.getElem_map, List.getElem_range, toDFrame, List.map_cons,
      List.map_nil, e1]
    rfl

theorem runSave_display_rows (name : String) (rows : List CleanRow) :
    (runSave name rows).2.1.rows = rows.map displayLine := by
  show frameRows cellRenderDisplay
      ⟨[("Settlement Date", rows.map (fun r => Cell.date r.settlement_date)),
        ("Symbol", rows.map (fun r => Cell.str r.symbol)),
        ("Stock Name", rows.map (fun r => Cell.str r.stock_name)),
        ("Transaction Type", rows.map (fun r => txCell r.transaction_type)),
        ("Quantity", rows.map (fun r => Cell.num r.quantity)),
        ("Price", applyCurrency (rows.map (fun r => Cell.num r.price))),
        ("Total Amount", applyCurrency (rows.map (fun r => Cell.num r.total_amount)))]⟩ =
    rows.map displayLine
  apply List.ext_getElem
  · simp [frameRows, DFrame.numRows]
  · intro i h1 h2
    have hi : i < rows.length := by simpa using h2
    have e1 : ∀ f : CleanRow → Cell, (rows.map f).getD i (Cell.str "") = f (rows.get ⟨i, hi⟩) := by
      intro f
      rw [List.getD_eq_getElem _ _ (by simpa using hi)]
      exact List.getElem_map f
    simp only [frameRows, List.getElem_map, List.getElem_range, List.map_cons, List.map_nil,
      applyCurrency, List.map_map, e1]
    rfl

theorem runSave_stats (name : String) (rows : List CleanRow) :
    (runSave name rows).2.2 =
      ⟨rows.length, (rows.map CleanRow.symbol).dedup.length,
       rows.countP (fun r => r.transaction_type == some TxType.SELL),
       rows.countP (fun r => r.transaction_type == some TxType.BUY)⟩ := by
  show Stats.mk ((rows.map (fun r => Cell.date r.settlement_date)).length)
      ((rows.map (fun r => Cell.str r.symbol)).dedup.length)
      ((rows.map (fun r => txCell r.transaction_type)).countP (fun c => c == Cell.str "SELL"))
      ((rows.map (fun r => txCell r.transaction_type)).countP (fun c => c == Cell.str "BUY")) = _
  have hsym : (rows.map (fun r => Cell.str r.symbol)).dedup.length =
      (rows.map CleanRow.symbol).dedup.length := by
    rw [show rows.map (fun r => Cell.str r.symbol) =
        (rows.map CleanRow.symbol).map (fun s => Cell.str s) from (List.map_map _ _ _).symm]
    exact dedup_length_map_inj _ (fun a b hab => Cell.str.inj hab) _
  have hsell : (rows.map (fun r => txCell r.transaction_type)).countP
      (fun c => c == Cell.str "SELL") =
      rows.countP (fun r => r.transaction_type == some TxType.SELL) := by
    rw [List.countP_map]
    apply List.countP_congr
    intro r _
    rcases hr : r.transaction_type with _ | t
    · simp [Function.comp, txCell, hr]
    · cases t <;> simp [Function.comp, txCell, txLabel, hr]
  have hbuy : (rows.map (fun r => txCell r.transaction_type)).countP
      (fun c => c == Cell.str "BUY") =
      rows.countP (fun r => r.transaction_type == some TxType.BUY) := by
    rw [List.countP_map]
    apply List.countP_congr
    intro r _
    rcases hr : r.transaction_type with _ | t
    · simp [Function.comp, txCell, hr]
    · cases t <;> simp [Function.comp, txCell, txLabel, hr]
  rw [List.length_map, hsym, hsell, hbuy]

/-! ## Claim C7 -/

/-- C7: the canonical and the display record sets are line-for-line images
of the same normalized rows in the same order (the display set differing
only in its column subset and the currency formatting), and the printed
statistics are computed over exactly that dataset: total count, distinct
symbol count and per-type counts of the rows that were written. -/
theorem C7_consistency (name : String) (rows : List CleanRow) :
    (runSave name rows).1.rows = rows.map canonicalLine ∧
    (runSave name rows).2.1.rows = rows.map displayLine ∧
    (runSave name rows).2.2 =
      ⟨rows.length, (rows.map CleanRow.symbol).dedup.length,
       rows.countP (fun r => r.transaction_type == some TxType.SELL),
       rows.countP (fun r => r.transaction_type == some TxType.BUY)⟩ :=
  ⟨runSave_clean_rows name rows, runSave_display_rows name rows, runSave_stats name rows⟩

/-! ## Claim C9 -/

/-- C9: output formatting does not mutate the normalized dataset.  The
display frame is a fresh copy (column list indexing allocates), the
currency columns are written into that copy, and the cleaned frame that
the canonical file and the statistics read is unchanged after the save
call. -/
theorem C9_formatting_no_mutation (h : Heap) (a : Nat) (name : String)
    (ha : a < h.frames.length) :
    ((save_transactions_summary h a name).1).read a = h.read a := by
  show (((h.frames ++ [(h.read a).select displayColumns]).set h.frames.length _).set
      h.frames.length _).getD a ⟨[]⟩ = h.frames.getD a ⟨[]⟩
  have hne : h.frames.length ≠ a := Nat.ne_of_gt ha
  rw [List.getD_eq_getElem?_getD, List.getElem?_set_ne hne, List.getElem?_set_ne hne,
    List.getElem?_append, if_pos ha, ← List.getD_eq_getElem?_getD]

theorem C9_formatting_no_mutation_witness :
    ((save_transactions_summary ⟨[toDFrame wOut]⟩ 0 "w.csv").1).read 0 =
      (⟨[toDFrame wOut]⟩ : Heap).read 0 :=
  C9_formatting_no_mutation ⟨[toDFrame wOut]⟩ 0 "w.csv" (by decide)

/-! ## Claim C8 -/

theorem parseDateColumn_error_of_bad (col : List String)
    (h : ∃ s ∈ col, parseDate s = none) :
    ∃ s, s ∈ col ∧ parseDate s = none ∧ parseDateColumn col = .error (.parseError s) := by
  induction col with
  | nil => obtain ⟨s, hs, _⟩ := h; exact absurd hs (List.not_mem_nil s)
  | cons a t ih =>
    cases hpa : parseDate a with
    | none =>
      refine ⟨a, List.mem_cons_self a t, hpa, ?_⟩
      unfold parseDateColumn
      rw [hpa]
    | some d =>
      obtain ⟨s, hs, hn⟩ := h
      have hst : s ∈ t := by
        rcases List.mem_cons.mp hs with rfl | hst
        · exact absurd hn (by rw [hpa]; exact Option.noConfusion)
        · exact hst
      obtain ⟨s₂, hs₂, hn₂, herr⟩ := ih ⟨s, hst, hn⟩
      refine ⟨s₂, List.mem_cons_of_mem a hs₂, hn₂, ?_⟩
      unfold parseDateColumn
      rw [hpa, herr]

theorem parseDateColumn_ok_of_good (col : List String)
    (h : ∀ s ∈ col, (parseDate s).isSome = true) :
    ∃ ds, parseDateColumn col = .ok ds := by
  induction col with
  | nil => exact ⟨[], rfl⟩
  | cons a t ih =>
    obtain ⟨d, hd⟩ := Option.isSome_iff_exists.mp (h a (List.mem_cons_self a t))
    obtain ⟨ds, hds⟩ := ih (fun s hs => h s (List.mem_cons_of_mem a hs))
    refine ⟨d :: ds, ?_⟩
    unfold parseDateColumn
    rw [hd, hds]

/-- C8: an unparsable settlement date cell is fatal for the whole file (the
run of clean_fidelity_csv is the parse error), while quantity and price
cells that fail numeric coercion never raise: the file still cleans
successfully and the failing cells surface as null fields. -/
theorem C8_date_fatal_numeric_tolerant (name : String) (df : RawFrame)
    (hschema : neededColumns.all (fun c => df.stripColumns.columns.contains c) = true) :
    ((∃ s ∈ df.stripColumns.col "Settlement Date", parseDate s = none) →
      ∃ s, parseDate s = none ∧ clean_fidelity_csv name df = .error (.parseError s)) ∧
    ((∀ s ∈ df.stripColumns.col "Settlement Date", (parseDate s).isSome = true) →
      ∃ out, clean_fidelity_csv name df = .ok out ∧
        ∀ r ∈ out,
          r.quantity = parseNumeric ((df.stripColumns.col "Quantity").getD r.idx "") ∧
          r.price = (parseNumeric ((df.stripColumns.col "Price").getD r.idx "")).map roundTo2) := by
  constructor
  · intro hbad
    obtain ⟨s, _, hn, herr⟩ := parseDateColumn_error_of_bad _ hbad
    refine ⟨s, hn, ?_⟩
    unfold clean_fidelity_csv
    rw [if_pos hschema, herr]
  · intro hgood
    obtain ⟨ds, hds⟩ := parseDateColumn_ok_of_good _ hgood
    refine ⟨sortByDateDescending
        (((List.range (df.stripColumns.col "Settlement Date").length).map
            (buildRow df.stripColumns ds)).filter (fun r => r.transaction_type.isSome)),
      ?_, ?_⟩
    · unfold clean_fidelity_csv
      rw [if_pos hschema, hds]
    · intro r hr
      obtain ⟨j, hj, rfl, _⟩ := (mem_clean_ok df _ ds rfl r).mp hr
      exact ⟨rfl, rfl⟩

def badDateFrame : RawFrame :=
  ⟨[("Settlement Date", ["01/02/2024"]),
    ("Symbol", ["AAA"]),
    ("Description", ["A CORP"]),
    ("Quantity", ["1"]),
    ("Price", ["10"]),
    ("Action", ["YOU BOUGHT A"])]⟩

def softFrame : RawFrame :=
  ⟨[("Settlement Date", ["2024-01-02"]),
    ("Symbol", ["AAA"]),
    ("Description", ["A CORP"]),
    ("Quantity", ["2"]),
    ("Price", ["N/A"]),
    ("Action", ["YOU SOLD A"])]⟩

def softOut : List CleanRow :=
  [⟨0, 20240102, "AAA", "A CORP", some ⟨2, 0⟩, none, none, some TxType.SELL⟩]

theorem C8_date_fatal_numeric_tolerant_witness :
    (∃ s, parseDate s = none ∧
      clean_fidelity_csv "orders/raw/bad.csv" badDateFrame = .error (.parseError s)) ∧
    (∃ out, clean_fidelity_csv "orders/raw/soft.csv" softFrame = .ok out ∧
      ∀ r ∈ out,
        r.quantity = parseNumeric ((softFrame.stripColumns.col "Quantity").getD r.idx "") ∧
        r.price = (parseNumeric ((softFrame.stripColumns.col "Price").getD r.idx "")).map
          roundTo2) :=
  ⟨(C8_date_fatal_numeric_tolerant "orders/raw/bad.csv" badDateFrame rfl).1
      ⟨"01/02/2024", by decide, rfl⟩,
   (C8_date_fatal_numeric_tolerant "orders/raw/soft.csv" softFrame rfl).2
      (by decide)⟩

/-! ## Claim C10 -/

/-- C10: a normalized row whose price or total amount is null (quantity or
price failed numeric coercion while the action text was classifiable) is
retained through formatting, each null monetary field renders in the
display file as the literal string dollar-nan (the Price cell is display
column 5, the Total Amount cell is display column 6), its classification
is present, and formatting is total, so it never raises on a null
value. -/
theorem C10_nan_currency (filePath : String) (df : RawFrame) (out : List CleanRow)
    (h : clean_fidelity_csv filePath df = .ok out) (name : String) (i : Nat)
    (hi : i < out.length)
    (hnull : (out.getD i rowDefault).price = none ∨
      (out.getD i rowDefault).total_amount = none) :
    (runSave name out).2.1.rows.length = out.length ∧
    ((out.getD i rowDefault).price = none →
      ((runSave name out).2.1.rows.getD i []).getD 5 "" = "$nan") ∧
    ((out.getD i rowDefault).total_amount = none →
      ((runSave name out).2.1.rows.getD i []).getD 6 "" = "$nan") ∧
    (out.getD i rowDefault).transaction_type.isSome = true := by
  refine ⟨?_, ?_, ?_, ?_⟩
  · rw [runSave_display_rows, List.length_map]
  · intro hp
    rw [runSave_display_rows, getD_map_lt displayLine out hi [] rowDefault]
    show cellRenderDisplay (Cell.str (fmtCurrency (out.getD i rowDefault).price)) = "$nan"
    rw [hp]
    rfl
  · intro ht
    rw [runSave_display_rows, getD_map_lt displayLine out hi [] rowDefault]
    show cellRenderDisplay (Cell.str (fmtCurrency (out.getD i rowDefault).total_amount)) = "$nan"
    rw [ht]
    rfl
  · obtain ⟨dates, hdates, hout⟩ := clean_fidelity_csv_ok filePath df out h
    have hmem : out.getD i rowDefault ∈ out := by
      rw [List.getD_eq_getElem _ _ hi]
      exact List.getElem_mem hi
    obtain ⟨j, hj, he, hsome⟩ :=
      (mem_clean_ok df out dates hout (out.getD i rowDefault)).mp hmem
    exact hsome

def qtyFailFrame : RawFrame :=
  ⟨[("Settlement Date", ["2024-01-02"]),
    ("Symbol", ["BBB"]),
    ("Description", ["B CORP"]),
    ("Quantity", ["oops"]),
    ("Price", ["19.5"]),
    ("Action", ["YOU BOUGHT B"])]⟩

def qtyFailOut : List CleanRow :=
  [⟨0, 20240102, "BBB", "B CORP", none, some ⟨1950, 2⟩, none, some TxType.BUY⟩]

theorem C10_nan_currency_witness :
    ((runSave "soft.csv" softOut).2.1.rows.length = softOut.length ∧
     ((softOut.getD 0 rowDefault).price = none →
       ((runSave "soft.csv" softOut).2.1.rows.getD 0 []).getD 5 "" = "$nan") ∧
     ((softOut.getD 0 rowDefault).total_amount = none →
       ((runSave "soft.csv" softOut).2.1.rows.getD 0 []).getD 6 "" = "$nan") ∧
     (softOut.getD 0 rowDefault).transaction_type.isSome = true) ∧
    ((runSave "q.csv" qtyFailOut).2.1.rows.length = qtyFailOut.length ∧
     ((qtyFailOut.getD 0 rowDefault).price = none →
       ((runSave "q.csv" qtyFailOut).2.1.rows.getD 0 []).getD 5 "" = "$nan") ∧
     ((qtyFailOut.getD 0 rowDefault).total_amount = none →
       ((runSave "q.csv" qtyFailOut).2.1.rows.getD 0 []).getD 6 "" = "$nan") ∧
     (qtyFailOut.getD 0 rowDefault).transaction_type.isSome = true) :=
  ⟨C10_nan_currency "orders/raw/soft.csv" softFrame softOut rfl "soft.csv" 0 (by decide)
      (Or.inl rfl),
   C10_nan_currency "orders/raw/q.csv" qtyFailFrame qtyFailOut rfl "q.csv" 0 (by decide)
      (Or.inr rfl)⟩

end Portfolio
